import Mathlib

/-!
Shallow embedding of the DjangoOCPP central-system protocol engine.

Sources embedded here:
* `ocpp_lib/types.py` — the `OcppType` serializer and the typed payload
  constructors (each Python `__init__` collects its keyword arguments in
  parameter order and drops the `None`-valued ones);
* `ocpp_lib/enums.py` — `OCPPMessageType` and `OCPPCommands`;
* `ocpp_lib/decorators.py` — `call_result_message_decorator`;
* `api/consumers.py` — `OcppConsumer.receive` and the Django rows it saves
  (`api/models.py`: `Call`, `CallResult`);
* `ocpp_lib/call.py` — `Call.CallHandler.__save_call`, `__await_response`,
  `issue_command`.

Python runtime values are modelled by `PyVal`; uncaught Python exceptions by
`PyError`.  Wall-clock time is not modelled: `datetime.datetime.utcnow()` is
an opaque parameter `now` carrying its `isoformat()` string, and the polling
sleep of `__await_response` is modelled by indexing the database snapshots by
poll cycle.  Channel-layer traffic and logging are recorded as `Effect`s.
-/

namespace DjangoOCPP

/-- A Python runtime value as it occurs in this code base: JSON scalars,
strings, enum members (`enums.py` members carry their wire string), naive
`datetime` objects (carrying their `isoformat()` string), instances of
`OcppType` subclasses (class name plus the `self.__data` keyword dict of
`types.py` line 41), plus plain lists and dicts. -/
inductive PyVal where
  | pyNone
  | bool (b : Bool)
  | int (n : ℤ)
  | float (q : ℚ)
  | str (s : String)
  | enumS (wire : String)
  | dt (iso : String)
  | ocpp (cls : String) (data : List (String × PyVal))
  | pylist (xs : List PyVal)
  | pydict (fields : List (String × PyVal))

/-- An exception escaping (or raised by) the embedded Python code. -/
inductive PyError where
  | indexError
  | valueError
  | keyError
  | typeError
  | unboundLocalError
  | attributeError
  | integrityError
  | ocppInvalidType
  | ocppInvalidCommand
deriving DecidableEq, Repr

mutual
/-- Python `==` on the values stored and compared by this code base
(message ids, payloads).  Structural equality: every id this program stores
or matches is a string, so Python's numeric cross-type equalities
(`2 == 2.0`) are irrelevant to the compared fields. -/
def pyBEq : PyVal → PyVal → Bool
  | .pyNone, .pyNone => true
  | .bool a, .bool b => a == b
  | .int a, .int b => a == b
  | .float a, .float b => a == b
  | .str a, .str b => a == b
  | .enumS a, .enumS b => a == b
  | .dt a, .dt b => a == b
  | .ocpp c xs, .ocpp d ys => c == d && pyFieldsBEq xs ys
  | .pylist xs, .pylist ys => pyValsBEq xs ys
  | .pydict xs, .pydict ys => pyFieldsBEq xs ys
  | _, _ => false

/-- Elementwise Python `==` on lists. -/
def pyValsBEq : List PyVal → List PyVal → Bool
  | [], [] => true
  | x :: xs, y :: ys => pyBEq x y && pyValsBEq xs ys
  | _, _ => false

/-- Elementwise Python `==` on keyword dicts (insertion ordered). -/
def pyFieldsBEq : List (String × PyVal) → List (String × PyVal) → Bool
  | [], [] => true
  | (k, v) :: xs, (l, w) :: ys => k == l && pyBEq v w && pyFieldsBEq xs ys
  | _, _ => false
end

mutual
/-- `ocpp_lib/types.py` lines 54-88, `single_value_serialize` inside
`OcppType.serialize`.  Branches in source order: enum members give
`value.value` (the wire string); `datetime`/`date` give `value.isoformat()`;
`OcppType` instances recurse via `value.serialize()`; `int`/`float`/`bool`/
`str` pass through; the list branch executes
`[one.serialize() if issubclass(value.__class__, OcppType) else one for one in list]`
(line 84), which iterates the *builtin type* `list` rather than `value` and
therefore raises `TypeError: 'type' object is not iterable`; every remaining
kind raises `ValueError` (line 88). -/
def single_value_serialize : PyVal → Except PyError PyVal
  | .enumS wire => .ok (.str wire)
  | .dt iso => .ok (.str iso)
  | .ocpp _ data =>
      match serialize_fields data with
      | .ok fields => .ok (.pydict fields)
      | .error e => .error e
  | .int n => .ok (.int n)
  | .float q => .ok (.float q)
  | .bool b => .ok (.bool b)
  | .str s => .ok (.str s)
  | .pylist _ => .error .typeError
  | .pyNone => .error .valueError
  | .pydict _ => .error .valueError

/-- `ocpp_lib/types.py` line 90: the dict comprehension
`{key: single_value_serialize(value) for key, value in self.__data.items()}`;
an exception from any field propagates out of `serialize`. -/
def serialize_fields : List (String × PyVal) → Except PyError (List (String × PyVal))
  | [] => .ok []
  | (k, v) :: rest =>
      match single_value_serialize v with
      | .error e => .error e
      | .ok v' =>
          match serialize_fields rest with
          | .error e => .error e
          | .ok rest' => .ok ((k, v') :: rest')
end

/-- `ocpp_lib/types.py` line 41 (`OcppType.__init__`): keep the keyword
arguments, in parameter order, whose value is not `None`. -/
def dropNone (kwargs : List (String × Option PyVal)) : List (String × PyVal) :=
  kwargs.filterMap (fun kv =>
    match kv.2 with
    | Option.none => Option.none
    | some PyVal.pyNone => Option.none
    | some v => some (kv.1, v))

/-- `types.py` `IdToken.__init__` (lines 125-139). -/
def IdToken (idTokenValue : String) : PyVal :=
  .ocpp "IdToken" (dropNone [("IdToken", some (.str idTokenValue))])

/-- `types.py` `IdTagInfo.__init__` (lines 146-164). -/
def IdTagInfo (status : PyVal) (parentIdTag expiryDate : Option PyVal) : PyVal :=
  .ocpp "IdTagInfo"
    (dropNone [("status", some status), ("parentIdTag", parentIdTag),
               ("expiryDate", expiryDate)])

/-- `types.py` `ChargingSchedulePeriod.__init__` (lines 171-190). -/
def ChargingSchedulePeriod (startPeriod limit : PyVal) (numberPhases : Option PyVal) : PyVal :=
  .ocpp "ChargingSchedulePeriod"
    (dropNone [("startPeriod", some startPeriod), ("limit", some limit),
               ("numberPhases", numberPhases)])

/-- `types.py` `ChargingSchedule.__init__` (lines 197-227), including the
line-224 cast wrapping a non-list `chargingSchedulePeriod` in a list. -/
def ChargingSchedule (chargingRateUnit chargingSchedulePeriod : PyVal)
    (duration startSchedule minChargingRate : Option PyVal) : PyVal :=
  let csp : PyVal :=
    match chargingSchedulePeriod with
    | .pylist xs => .pylist xs
    | v => .pylist [v]
  .ocpp "ChargingSchedule"
    (dropNone [("chargingRateUnit", some chargingRateUnit),
               ("chargingSchedulePeriod", some csp),
               ("duration", duration), ("startSchedule", startSchedule),
               ("minChargingRate", minChargingRate)])

/-- `types.py` `RemoteStartTransaction_Req.__init__` (lines 502-519). -/
def RemoteStartTransaction_Req (idTag : PyVal) (chargingProfile connectorId : Option PyVal) : PyVal :=
  .ocpp "RemoteStartTransaction_Req"
    (dropNone [("idTag", some idTag), ("chargingProfile", chargingProfile),
               ("connectorId", connectorId)])

/-- `types.py` `Authorize_Conf.__init__` (lines 299-313). -/
def Authorize_Conf (idTagInfo : PyVal) : PyVal :=
  .ocpp "Authorize_Conf" (dropNone [("idTagInfo", some idTagInfo)])

/-- `types.py` `BootNotification_Conf.__init__` (lines 320-340). -/
def BootNotification_Conf (currentTime interval status : PyVal) : PyVal :=
  .ocpp "BootNotification_Conf"
    (dropNone [("currentTime", some currentTime), ("interval", some interval),
               ("status", some status)])

/-- `types.py` `StatusNotification_Conf.__init__` (lines 347-357). -/
def StatusNotification_Conf : PyVal := .ocpp "StatusNotification_Conf" []

/-- `types.py` `StartTransaction_Conf.__init__` (lines 364-380). -/
def StartTransaction_Conf (idTagInfo transactionId : PyVal) : PyVal :=
  .ocpp "StartTransaction_Conf"
    (dropNone [("idTagInfo", some idTagInfo), ("transactionId", some transactionId)])

/-- `types.py` `StopTransaction_Conf.__init__` (lines 387-401). -/
def StopTransaction_Conf (idTagInfo : Option PyVal) : PyVal :=
  .ocpp "StopTransaction_Conf" (dropNone [("idTagInfo", idTagInfo)])

/-- `types.py` `MeterValues_Conf.__init__` (lines 408-418). -/
def MeterValues_Conf : PyVal := .ocpp "MeterValues_Conf" []

/-- `types.py` `Heartbeat_Conf.__init__` (lines 425-439). -/
def Heartbeat_Conf (currentTime : PyVal) : PyVal :=
  .ocpp "Heartbeat_Conf" (dropNone [("currentTime", some currentTime)])

/-- `types.py` `DataTransfer_Conf.__init__` (lines 446-461). -/
def DataTransfer_Conf (status : PyVal) (data : Option PyVal) : PyVal :=
  .ocpp "DataTransfer_Conf" (dropNone [("status", some status), ("data", data)])

/-- `types.py` `DiagnosticsStatusNotification_Conf.__init__` (lines 468-478). -/
def DiagnosticsStatusNotification_Conf : PyVal :=
  .ocpp "DiagnosticsStatusNotification_Conf" []

/-- `types.py` `FirmwareStatusNotification_Conf.__init__` (lines 485-495). -/
def FirmwareStatusNotification_Conf : PyVal :=
  .ocpp "FirmwareStatusNotification_Conf" []

/-- `ocpp_lib/enums.py` lines 27-62: the members of `OCPPCommands`, in
declaration order; `auto()` gives member `k` (0-based) the value `k + 1`. -/
def OCPPCommands_names : List String :=
  ["Authorize", "BootNotification", "CancelReservation", "ChangeAvailability",
   "ChangeConfiguration", "ClearCache", "ClearChargingProfile", "DataTransfer",
   "DiagnosticsStatusNotification", "FirmwareStatusNotification",
   "GetCompositeSchedule", "GetConfiguration", "GetDiagnostics",
   "GetLocalListVersion", "Heartbeat", "MeterValues", "RemoteStartTransaction",
   "RemoteStopTransaction", "ReserveNow", "SendLocalList", "SetChargingProfile",
   "StartTransaction", "StatusNotification", "StopTransaction", "TriggerMessage",
   "UnlockConnector", "UpdateFirmware"]

/-- `OCPPCommands[action]` (`consumers.py` line 100): `Enum` lookup by member
name; any value that is not the name of a member raises `KeyError`, which is
what the `Option.none` result stands for. -/
def OCPPCommands_lookup (action : PyVal) : Option String :=
  match action with
  | .str s => if OCPPCommands_names.contains s then some s else Option.none
  | _ => Option.none

/-- `OCPPMessageType(x)` (`enums.py` lines 13-25): `Enum` lookup by value;
succeeds exactly for the values 2, 3 and 4 — including the Python float
equalities `2.0 == 2` etc. — and raises `ValueError` otherwise
(`Option.none`). -/
def OCPPMessageType_of (v : PyVal) : Option ℕ :=
  match v with
  | .int 2 => some 2
  | .int 3 => some 3
  | .int 4 => some 4
  | .float q => if q = 2 then some 2 else if q = 3 then some 3
                else if q = 4 then some 4 else Option.none
  | _ => Option.none

/-- `ocpp_lib/decorators.py` lines 100-103: `payload` is the wrapped
function's return serialized when it has a working `serialize()`; on any
exception the bare `except` falls back to the raw return value. -/
def decorator_payload (ret : PyVal) : PyVal :=
  match ret with
  | .ocpp cls data =>
      match serialize_fields data with
      | .ok fields => .pydict fields
      | .error _ => .ocpp cls data
  | v => v

/-- `ocpp_lib/decorators.py` lines 97-127, `call_result_message_decorator`'s
`inner`, applied to the wrapped function's return value `ret` and the keyword
arguments of the call.  Order as in source: compute `payload` (lines
100-103); raise `ValueError` unless it is a dict (lines 107-108); raise
`KeyError` unless `message_id` is among the keyword arguments (lines
112-113); otherwise return `[3, kwargs.get('message_id'), payload]`
(lines 115-125). -/
def call_result_message_decorator (ret : PyVal) (kwargs : List (String × PyVal)) :
    Except PyError PyVal :=
  let payload := decorator_payload ret
  match payload with
  | .pydict fields =>
      match kwargs.find? (fun kv => kv.1 == "message_id") with
      | some kv => .ok (.pylist [.int 3, kv.2, .pydict fields])
      | Option.none => .error .keyError
  | _ => .error .valueError

/-- `ocpp_lib/call.py` `Call.Callbacks` (lines 232-456) seen through
`getattr(Call.Callbacks, name)` (`consumers.py` line 107): the ten actions
with a handler return their hard-coded `*_Conf` payload (each handler body is
embedded verbatim; `datetime.datetime.utcnow()` is the opaque `now`); every
other attribute lookup raises `AttributeError` (`Option.none`). -/
def Callbacks_getattr (name : String) (now : String) : Option PyVal :=
  if name = "Authorize" then
    some (Authorize_Conf (IdTagInfo (.enumS "Accepted") Option.none Option.none))
  else if name = "BootNotification" then
    some (BootNotification_Conf (.dt now) (.int 10) (.enumS "Accepted"))
  else if name = "StatusNotification" then some StatusNotification_Conf
  else if name = "StartTransaction" then
    some (StartTransaction_Conf (IdTagInfo (.enumS "Accepted") Option.none Option.none) (.int 1))
  else if name = "StopTransaction" then some (StopTransaction_Conf Option.none)
  else if name = "MeterValues" then some MeterValues_Conf
  else if name = "Heartbeat" then some (Heartbeat_Conf (.dt now))
  else if name = "FirmwareStatusNotification" then some FirmwareStatusNotification_Conf
  else if name = "DiagnosticsStatusNotification" then some DiagnosticsStatusNotification_Conf
  else if name = "DataTransfer" then some (DataTransfer_Conf (.enumS "Accepted") Option.none)
  else Option.none

/-- A row of the Django `Call` model (`api/models.py` lines 3-18).
`sent_at` is not modelled (wall-clock time is outside the embedding);
`call_result_obj` is the one-to-one link, as an index into the stored
`CallResult` rows. -/
structure CallRow where
  message_type_id : PyVal
  message_id : PyVal
  action : PyVal
  payload : PyVal
  charger_id : String
  direction : String
  call_result_obj : Option ℕ

/-- A row of the Django `CallResult` model (`api/models.py` lines 20-37);
`call_obj` is the one-to-one link, as an index into the stored `Call`
rows. -/
structure CallResultRow where
  message_type_id : PyVal
  message_id : PyVal
  payload : PyVal
  charger_id : String
  direction : String
  call_obj : Option ℕ

/-- The stored state: all saved `Call` and `CallResult` rows, in insertion
order (Django primary-key order; `filter(...)[0]` picks the first match). -/
structure Db where
  calls : List CallRow
  callResults : List CallResultRow

/-- An observable side effect of the consumer: a channel-layer
`group_send` of a frame to a group, or a log record at some level. -/
inductive Effect where
  | sendFrame (group : String) (frame : PyVal)
  | logInfo
  | logWarning
  | logCritical
  | logException

/-- Whether an effect delivers a frame to the device. -/
def Effect.isSend : Effect → Bool
  | .sendFrame _ _ => true
  | _ => false

/-- Number of frames delivered to devices among the recorded effects. -/
def sendCount (effs : List Effect) : ℕ :=
  (effs.filter Effect.isSend).length

/-- Outcome of one `OcppConsumer.receive` invocation: the effects emitted
before control left the method, the stored state afterwards, and the uncaught
exception, if `receive` raised one (in Django Channels an exception escaping
`receive` is a transport fault that tears the consumer down). -/
structure ReceiveOut where
  effects : List Effect
  db : Db
  err : Option PyError

/-- `save_and_link_call_and_result` applied to a call at index `i`
(`api/consumers.py` lines 27-49): set its `call_result_obj` link to the
result row index `r`, leaving every other row unchanged. -/
def linkCallAt : List CallRow → ℕ → ℕ → List CallRow
  | [], _, _ => []
  | c :: cs, 0, r => { c with call_result_obj := some r } :: cs
  | c :: cs, Nat.succ i, r => c :: linkCallAt cs i r

/-- `api/consumers.py` lines 92-150, the `OCPPMessageType.CALL` branch of
`OcppConsumer.receive`.  In source order: log; unpack
`message[1], message[2], message[3]` (an `IndexError` here is uncaught);
`OCPPCommands[action]` — on `KeyError` log critical and `return` (lines
99-103, nothing is sent); `getattr(Call.Callbacks, action.name)` and the
decorated handler call with `message_id`/`call_payload` keyword arguments —
`AttributeError` is logged as a warning, any other exception via the bare
`except` (lines 105-115, nothing is sent either way); on success the
`else` block logs, `group_send`s the response and saves the linked
`Call`/`CallResult` rows (lines 116-150). -/
def receiveCall (charger_id : String) (message : List PyVal) (now : String)
    (db : Db) (effs : List Effect) : ReceiveOut :=
  match message[1]?, message[2]?, message[3]? with
  | some message_id, some action, some payload =>
    match OCPPCommands_lookup action with
    | Option.none => ⟨effs ++ [.logCritical], db, Option.none⟩
    | some actionName =>
      match Callbacks_getattr actionName now with
      | Option.none => ⟨effs ++ [.logWarning], db, Option.none⟩
      | some ret =>
        match call_result_message_decorator ret
            [("message_id", message_id), ("call_payload", payload)] with
        | .error _ => ⟨effs ++ [.logException], db, Option.none⟩
        | .ok response =>
          match response with
          | .pylist [rMt, rMid, rPayload] =>
            let call_obj : CallRow :=
              { message_type_id := .int 2, message_id := message_id,
                action := .str actionName, payload := payload,
                charger_id := charger_id, direction := "C2S",
                call_result_obj := some db.callResults.length }
            let call_result_obj : CallResultRow :=
              { message_type_id := rMt, message_id := rMid, payload := rPayload,
                charger_id := charger_id, direction := "S2C",
                call_obj := some db.calls.length }
            ⟨effs ++ [.logInfo, .sendFrame ("ocpp_" ++ charger_id) response, .logInfo],
             { calls := db.calls ++ [call_obj],
               callResults := db.callResults ++ [call_result_obj] },
             Option.none⟩
          | _ => ⟨effs, db, some .typeError⟩
  | _, _, _ => ⟨effs ++ [], db, some .indexError⟩

/-- `api/consumers.py` lines 152-183, the `OCPPMessageType.CALL_RESULT`
branch.  `message_id, payload = message[1:]` raises `ValueError` unless the
frame has exactly three elements; `Call.objects.filter(message_id=...)` — by
message id alone, with no charger or direction restriction — either matches
nothing, in which case only `logger.critical` runs, or matches, in which
case `call_obj[0]` (the first stored match) is handed with a fresh
`CallResult` to `save_and_link_call_and_result` (line 178).
`CallResult.call_obj` is a `OneToOneField` (`models.py` line 34), so its
column carries a UNIQUE constraint: when a stored `CallResult` already links
the matched call, the INSERT of the second row raises an uncaught
`IntegrityError` and nothing is stored (the preceding `call_obj.save()` is
an UPDATE rewriting the row's current values, so the state is unchanged);
otherwise the save and the two-way linkage succeed. -/
def receiveCallResult (charger_id : String) (message : List PyVal) (db : Db)
    (effs : List Effect) : ReceiveOut :=
  match message with
  | [_, message_id, payload] =>
    match db.calls.findIdx? (fun c => pyBEq c.message_id message_id) with
    | some i =>
      if db.callResults.any (fun r => r.call_obj == some i) then
        ⟨effs, db, some .integrityError⟩
      else
        let call_result_obj : CallResultRow :=
          { message_type_id := .int 3, message_id := message_id, payload := payload,
            charger_id := charger_id, direction := "C2S", call_obj := some i }
        ⟨effs,
         { calls := linkCallAt db.calls i db.callResults.length,
           callResults := db.callResults ++ [call_result_obj] },
         Option.none⟩
    | Option.none => ⟨effs ++ [.logCritical], db, Option.none⟩
  | _ => ⟨effs, db, some .valueError⟩

/-- `api/consumers.py` lines 80-190, `OcppConsumer.receive` on a decoded JSON
array `message` from charger `charger_id`.  Lines 86-89: on an empty array
`message[0]` raises `IndexError` inside the `try`, and the `except` handler's
log line indexes `message[0]` again, so the `IndexError` escapes; on a
present but invalid discriminator the `except` only logs, leaving the local
`message_type_id` unassigned, so line 92's comparison raises
`UnboundLocalError`.  Valid discriminators dispatch to the `CALL` and
`CALL_RESULT` branches; `CALL_ERROR` (lines 185-186) is logged and
ignored. -/
def receive (charger_id : String) (message : List PyVal) (now : String)
    (db : Db) : ReceiveOut :=
  let effs : List Effect := [.logInfo]
  match message[0]? with
  | Option.none => ⟨effs, db, some .indexError⟩
  | some head =>
    match OCPPMessageType_of head with
    | Option.none => ⟨effs ++ [.logCritical], db, some .unboundLocalError⟩
    | some 2 => receiveCall charger_id message now db (effs ++ [.logInfo])
    | some 3 => receiveCallResult charger_id message db (effs ++ [.logInfo])
    | some _ => ⟨effs ++ [.logInfo], db, Option.none⟩

/-- `CallResult.objects.get(message_id=message_id)` under the bare
`try/except: pass` of `call.py` lines 145-149: Django's `get` returns the row
when exactly one matches and raises (`DoesNotExist` or
`MultipleObjectsReturned`) otherwise; the `except` swallows the raise, so
anything but a unique match behaves as "not found yet". -/
def CallResult_objects_get (rows : List CallResultRow) (message_id : String) :
    Option CallResultRow :=
  match rows.filter (fun r => pyBEq r.message_id (.str message_id)) with
  | [r] => some r
  | _ => Option.none

/-- Python `int(q)`: truncation toward zero (`call.py` line 141 applies it to
`await_period / await_interval`; the two floats are modelled as exact
rationals). -/
def pyInt (q : ℚ) : ℤ :=
  if 0 ≤ q then q.floor else q.ceil

/-- `call.py` line 141: `await_cycles = int(await_period / await_interval)`,
the number of loop iterations of `__await_response`. -/
def await_cycles (await_period await_interval : ℚ) : ℕ :=
  (pyInt (await_period / await_interval)).toNat

/-- The `for i in range(0, await_cycles, 1)` loop of `__await_response`
(`call.py` lines 144-155): at cycle `i` the database snapshot is
`dbAt i` (it evolves while the coroutine sleeps); a unique matching
`CallResult` row ends the loop with the tuple
`(message_type_id, message_id, payload)` (line 147); exhausting the cycles
returns `None` (lines 154-155). -/
def await_response_loop (dbAt : ℕ → List CallResultRow) (message_id : String) :
    ℕ → ℕ → Option (PyVal × PyVal × PyVal)
  | _, 0 => Option.none
  | i, Nat.succ fuel =>
    match CallResult_objects_get (dbAt i) message_id with
    | some row => some (row.message_type_id, row.message_id, row.payload)
    | Option.none => await_response_loop dbAt message_id (i + 1) fuel

/-- The number of database lookups the loop of `await_response_loop`
performs before returning (one per iteration entered). -/
def await_checks (dbAt : ℕ → List CallResultRow) (message_id : String) :
    ℕ → ℕ → ℕ
  | _, 0 => 0
  | i, Nat.succ fuel =>
    match CallResult_objects_get (dbAt i) message_id with
    | some _ => 1
    | Option.none => await_checks dbAt message_id (i + 1) fuel + 1

/-- `Call.CallHandler.__await_response` (`call.py` lines 113-155). -/
def await_response (dbAt : ℕ → List CallResultRow) (message_id : String)
    (await_period await_interval : ℚ) : Option (PyVal × PyVal × PyVal) :=
  await_response_loop dbAt message_id 0 (await_cycles await_period await_interval)

/-- The attributes an `ocpp_lib.types` class object defines or inherits from
`OcppType` (`types.py` lines 20-114): each class defines `__init__` and
inherits `serialize`, `__str__` and `__repr__`; neither these classes, their
bases nor the `type` metaclass define a `split` attribute (`split` is a
method of `str` instances, not of class objects). -/
def typeClassAttrs (_cls : String) : List String :=
  ["__init__", "serialize", "__str__", "__repr__"]

/-- Python `s.strip(chars)`: remove leading and trailing characters drawn
from `chars`. -/
def pyStrip (s : String) (chars : List Char) : String :=
  let l := s.toList.dropWhile (fun c => chars.contains c)
  String.mk ((l.reverse.dropWhile (fun c => chars.contains c)).reverse)

/-- `call.py` line 199:
`str(type(request)).split('.')[-1].strip("'>").split('_')[0]` where
`str(type(request))` is `<class 'ocpp_lib.types.CLS'>` for a request of
class `CLS` from `ocpp_lib.types`. -/
def actionNameOfClass (cls : String) : String :=
  let lastComponent :=
    (("<class " ++ "'ocpp_lib.types." ++ cls ++ "'>").splitOn ".").getLastD ""
  ((pyStrip lastComponent ['\'', '>']).splitOn "_").headD ""

/-- `Call.CallHandler.issue_command` (`call.py` lines 157-230) for a request
that is an instance of an `ocpp_lib.types` class `reqCls` with keyword data
`reqData`; `message_id` stands for the `utils.random_message_id()` draw and
`dbAt` for the evolving `CallResult` table polled while awaiting.  Lines
190-193: `request.__class__.split('.')` looks up a `split` attribute on the
class object; the lookup raises `AttributeError`, the bare `except` catches
it, and `OCPPInvalidType` is raised.  The remainder (lines 196-230) builds
`[2, message_id, action, request.serialize()]`, saves the `Call` row via
`__save_call` (which stores `OCPPCommands[action].value`, raising `KeyError`
for a non-command name), `group_send`s the frame, and awaits iff
`shouldAwait`. -/
def issue_command (charger_id reqCls : String) (reqData : List (String × PyVal))
    (message_id : String) (dbAt : ℕ → List CallResultRow) (shouldAwait : Bool)
    (await_period await_interval : ℚ) (db : Db) :
    Except PyError (Db × List Effect × Option (PyVal × PyVal × PyVal)) :=
  if (typeClassAttrs reqCls).contains "split" then
    let action := actionNameOfClass reqCls
    match serialize_fields reqData with
    | .error e => .error e
    | .ok payloadFields =>
      let payload : PyVal := .pydict payloadFields
      match OCPPCommands_names.findIdx? (fun n => n == action) with
      | Option.none => .error .keyError
      | some idx =>
        let row : CallRow :=
          { message_type_id := .int 2, message_id := .str message_id,
            action := .int ((idx : ℤ) + 1), payload := payload,
            charger_id := charger_id, direction := "S2C",
            call_result_obj := Option.none }
        let db' : Db := { db with calls := db.calls ++ [row] }
        let frame : PyVal := .pylist [.int 2, .str message_id, .str action, payload]
        let effs : List Effect := [.sendFrame ("ocpp_" ++ charger_id) frame]
        if shouldAwait then
          .ok (db', effs, await_response dbAt message_id await_period await_interval)
        else
          .ok (db', effs, Option.none)
  else
    .error .ocppInvalidType

/-! ### Helper lemmas -/

/-- `linkCallAt` changes exactly the row at the linked index. -/
theorem linkCallAt_getElem? (calls : List CallRow) (i r j : ℕ) :
    (linkCallAt calls i r)[j]? =
      if j = i then (calls[j]?).map (fun c => { c with call_result_obj := some r })
      else calls[j]? := by
  induction calls generalizing i j with
  | nil => simp [linkCallAt]
  | cons c cs ih =>
    cases i with
    | zero =>
      cases j with
      | zero => simp [linkCallAt]
      | succ j => simp [linkCallAt]
    | succ i =>
      cases j with
      | zero => simp [linkCallAt]
      | succ j =>
        simp only [linkCallAt, List.getElem?_cons_succ]
        rw [ih]
        by_cases hji : j = i <;> simp [hji]

/-- The wait loop of `__await_response` performs at most one database lookup
per remaining cycle. -/
theorem await_checks_le (dbAt : ℕ → List CallResultRow) (message_id : String) :
    ∀ fuel i, await_checks dbAt message_id i fuel ≤ fuel := by
  intro fuel
  induction fuel with
  | zero => intro i; simp [await_checks]
  | succ fuel ih =>
    intro i
    unfold await_checks
    split
    · omega
    · exact Nat.succ_le_succ (ih (i + 1))

/-- A successful wait returns the tuple of a row found by the database
lookup at some polled cycle. -/
theorem await_response_loop_some (dbAt : ℕ → List CallResultRow) (message_id : String) :
    ∀ fuel i r, await_response_loop dbAt message_id i fuel = some r →
      ∃ k row, i ≤ k ∧ k < i + fuel
        ∧ CallResult_objects_get (dbAt k) message_id = some row
        ∧ r = (row.message_type_id, row.message_id, row.payload) := by
  intro fuel
  induction fuel with
  | zero => intro i r h; simp [await_response_loop] at h
  | succ fuel ih =>
    intro i r h
    unfold await_response_loop at h
    revert h
    cases hg : CallResult_objects_get (dbAt i) message_id with
    | some row =>
      intro h
      refine ⟨i, row, le_refl i, by omega, hg, ?_⟩
      exact (Option.some_injective _ h).symm
    | none =>
      intro h
      obtain ⟨k, row, hk1, hk2, hg2, hr⟩ := ih (i + 1) r h
      exact ⟨k, row, by omega, by omega, hg2, hr⟩

/-! ### The claims -/

/-- Claim C1 (code_bug): the claimed remote-start round trip never happens.
`issue_command` raises `OCPPInvalidType` for *every* request — in particular
for `RemoteStartTransaction_Req(idTag=IdToken("abc"), connectorId=1)` sent to
charger `"CP1"` with `shouldAwait=True` and `await_period=10` — because line
191 of `call.py` evaluates `request.__class__.split('.')`, an attribute
lookup of `split` on the class object, which raises `AttributeError`; the
bare `except` then raises `OCPPInvalidType` (line 193).  No frame is ever
sent and no payload returned. -/
theorem C1_issue_command_always_raises (charger_id reqCls : String)
    (reqData : List (String × PyVal)) (message_id : String)
    (dbAt : ℕ → List CallResultRow) (shouldAwait : Bool)
    (await_period await_interval : ℚ) (db : Db) :
    issue_command charger_id reqCls reqData message_id dbAt shouldAwait
        await_period await_interval db = .error .ocppInvalidType := rfl

/-- Claim C3 (confirmed): `__await_response` with timeout `await_period ≥ 0`
and positive `await_interval` performs at most
`⌊await_period / await_interval⌋` database lookups and always returns —
either the tuple of a stored `CallResult` row that the lookup matched at one
of the polled cycles, or `None` after the last cycle. -/
theorem C3_bounded_await (dbAt : ℕ → List CallResultRow) (message_id : String)
    (await_period await_interval : ℚ)
    (hp : 0 ≤ await_period) (hi : 0 < await_interval) :
    await_checks dbAt message_id 0 (await_cycles await_period await_interval)
        ≤ (⌊await_period / await_interval⌋).toNat
    ∧ ∀ r, await_response dbAt message_id await_period await_interval = some r →
        ∃ k row, k < await_cycles await_period await_interval
          ∧ CallResult_objects_get (dbAt k) message_id = some row
          ∧ r = (row.message_type_id, row.message_id, row.payload) := by
  have hq : 0 ≤ await_period / await_interval := div_nonneg hp hi.le
  have hcy : await_cycles await_period await_interval
      = (⌊await_period / await_interval⌋).toNat := by
    rw [await_cycles, pyInt, if_pos hq]
    rfl
  constructor
  · rw [← hcy]
    exact await_checks_le dbAt message_id _ 0
  · intro r h
    obtain ⟨k, row, _, hk2, hg, hr⟩ :=
      await_response_loop_some dbAt message_id _ 0 r h
    exact ⟨k, row, by omega, hg, hr⟩

/-- Witness for C3 at `await_period = 1`, `await_interval = 1` and an always
empty `CallResult` table. -/
theorem C3_bounded_await_witness :
    (0 ≤ (1 : ℚ)) ∧ (0 < (1 : ℚ)) ∧
    (await_checks (fun _ => []) "m" 0 (await_cycles 1 1)
        ≤ (⌊(1 : ℚ) / 1⌋).toNat
     ∧ ∀ r, await_response (fun _ => []) "m" 1 1 = some r →
        ∃ k row, k < await_cycles 1 1
          ∧ CallResult_objects_get ((fun (_ : ℕ) => ([] : List CallResultRow)) k) "m" = some row
          ∧ r = (row.message_type_id, row.message_id, row.payload)) :=
  ⟨by norm_num, by norm_num,
   C3_bounded_await (fun _ => []) "m" 1 1 (by norm_num) (by norm_num)⟩

/-- The `ChargingSchedule` of C9: a typed payload with a genuinely
list-valued field (`chargingSchedulePeriod`). -/
def chargingScheduleExample : PyVal :=
  ChargingSchedule (.enumS "A")
    (.pylist [ChargingSchedulePeriod (.int 0) (.int 8) Option.none])
    Option.none Option.none Option.none

/-- Claim C9 (code_bug): serializing a typed payload with a list-valued field
does not serialize the list element-wise — it raises `TypeError`, because the
list branch of `single_value_serialize` (`types.py` line 84) iterates the
builtin type `list` instead of the value (and tests `issubclass` on the
wrapper rather than each element, and never returns).  Evaluated here on
`ChargingSchedule(chargingRateUnit=A, chargingSchedulePeriod=[ChargingSchedulePeriod(0, 8)])`. -/
theorem C9_list_field_serialization_raises :
    single_value_serialize chargingScheduleExample = .error .typeError := rfl

/-- Claim C10 (confirmed): if the wrapped function's return serializes to a
dict but `message_id` is not among the keyword arguments of the call,
`call_result_message_decorator` raises `KeyError` (`decorators.py` lines
112-113) — the message id is accepted only as a keyword argument. -/
theorem C10_message_id_keyword_only (ret : PyVal) (kwargs : List (String × PyVal))
    (fields : List (String × PyVal))
    (h1 : decorator_payload ret = .pydict fields)
    (h2 : kwargs.find? (fun kv => kv.1 == "message_id") = Option.none) :
    call_result_message_decorator ret kwargs = .error .keyError := by
  unfold call_result_message_decorator
  rw [h1, h2]

/-- Witness for C10: the successful `BootNotification` handler return,
invoked without a `message_id` keyword argument. -/
theorem C10_message_id_keyword_only_witness :
    decorator_payload
        (BootNotification_Conf (.dt "2021-06-12T00:00:00") (.int 10) (.enumS "Accepted"))
      = .pydict [("currentTime", .str "2021-06-12T00:00:00"), ("interval", .int 10),
                 ("status", .str "Accepted")]
    ∧ ([] : List (String × PyVal)).find? (fun kv => kv.1 == "message_id") = Option.none
    ∧ call_result_message_decorator
        (BootNotification_Conf (.dt "2021-06-12T00:00:00") (.int 10) (.enumS "Accepted")) []
      = .error .keyError :=
  ⟨rfl, rfl, C10_message_id_keyword_only _ _ _ rfl rfl⟩

/-- A stored outbound call of charger `"A"` with correlation id `"m1"`
(as `__save_call` would write it). -/
def callRowA : CallRow :=
  { message_type_id := .int 2, message_id := .str "m1", action := .int 17,
    payload := .pydict [], charger_id := "A", direction := "S2C",
    call_result_obj := Option.none }

/-- A stored outbound call of charger `"B"` with correlation id `"m2"`. -/
def callRowB : CallRow :=
  { message_type_id := .int 2, message_id := .str "m2", action := .int 17,
    payload := .pydict [], charger_id := "B", direction := "S2C",
    call_result_obj := Option.none }

/-- A database holding only charger `"A"`'s pending call `"m1"`. -/
def dbOneCall : Db := ⟨[callRowA], []⟩

/-- A database with two pending calls to two different chargers. -/
def dbTwoCalls : Db := ⟨[callRowA, callRowB], []⟩

/-- Claim C2 counterexample: pending calls are *not* keyed by device.  With
only charger `"A"`'s call `"m1"` stored, a CallResult `[3,"m1",{}]` arriving
from charger `"B"` resolves (links) `"A"`'s pending call: the stored call of
charger `"A"` acquires the result link, and the saved result row — recorded
as coming from `"B"` — points back at it.  The lookup
`Call.objects.filter(message_id=...)` ignores the charger entirely. -/
theorem C2_counterexample :
    ((receive "B" [.int 3, .str "m1", .pydict []] "t0" dbOneCall).db.calls[0]?).map
        (fun c => (c.charger_id, c.call_result_obj)) = some ("A", some 0)
    ∧ ((receive "B" [.int 3, .str "m1", .pydict []] "t0" dbOneCall).db.callResults[0]?).map
        (fun r => (r.charger_id, r.call_obj)) = some ("B", some 0)
    ∧ (receive "B" [.int 3, .str "m1", .pydict []] "t0" dbOneCall).err = Option.none :=
  ⟨rfl, rfl, rfl⟩

/-- Claim C2 (amended): correlation is by message id alone, with the device
ignored.  An inbound `[3, id, payload]` whose id first matches the stored
call at index `i` — provided no stored `CallResult` already links that call,
which would instead violate the `CallResult.call_obj` UNIQUE constraint and
raise `IntegrityError` (see C7) — links exactly that call to the newly
appended result row and leaves every other stored call untouched; nothing is
sent back. -/
theorem C2_resolution_by_id_alone (charger_id now : String)
    (message_id payload : PyVal) (db : Db) (i : ℕ)
    (hmatch : db.calls.findIdx? (fun c => pyBEq c.message_id message_id) = some i)
    (hfree : db.callResults.any (fun r => r.call_obj == some i) = false) :
    (receive charger_id [.int 3, message_id, payload] now db).err = Option.none
    ∧ sendCount (receive charger_id [.int 3, message_id, payload] now db).effects = 0
    ∧ (∀ j, j ≠ i →
        (receive charger_id [.int 3, message_id, payload] now db).db.calls[j]?
          = db.calls[j]?)
    ∧ (receive charger_id [.int 3, message_id, payload] now db).db.calls[i]?
        = (db.calls[i]?).map
            (fun c => { c with call_result_obj := some db.callResults.length })
    ∧ (receive charger_id [.int 3, message_id, payload] now db).db.callResults
        = db.callResults
          ++ [{ message_type_id := .int 3, message_id := message_id,
                payload := payload, charger_id := charger_id,
                direction := "C2S", call_obj := some i }] := by
  have hred : receive charger_id [.int 3, message_id, payload] now db
      = receiveCallResult charger_id [.int 3, message_id, payload] db
          [.logInfo, .logInfo] := rfl
  rw [hred]
  simp only [receiveCallResult, hmatch, hfree, Bool.false_eq_true, if_false]
  refine ⟨by trivial, by trivial, ?_, ?_, by trivial⟩
  · intro j hj
    simp [linkCallAt_getElem?, hj]
  · simp [linkCallAt_getElem?]

/-- Witness for C2's amended theorem: two pending calls to chargers `"A"` and
`"B"`; the result for `"m2"` resolves exactly the call at index 1. -/
theorem C2_resolution_by_id_alone_witness :
    dbTwoCalls.calls.findIdx? (fun c => pyBEq c.message_id (.str "m2")) = some 1
    ∧ dbTwoCalls.callResults.any (fun r => r.call_obj == some 1) = false
    ∧ ((receive "B" [.int 3, .str "m2", .pydict []] "t0" dbTwoCalls).err = Option.none
    ∧ sendCount (receive "B" [.int 3, .str "m2", .pydict []] "t0" dbTwoCalls).effects = 0
    ∧ (∀ j, j ≠ 1 →
        (receive "B" [.int 3, .str "m2", .pydict []] "t0" dbTwoCalls).db.calls[j]?
          = dbTwoCalls.calls[j]?)
    ∧ (receive "B" [.int 3, .str "m2", .pydict []] "t0" dbTwoCalls).db.calls[1]?
        = (dbTwoCalls.calls[1]?).map
            (fun c => { c with call_result_obj := some dbTwoCalls.callResults.length })
    ∧ (receive "B" [.int 3, .str "m2", .pydict []] "t0" dbTwoCalls).db.callResults
        = dbTwoCalls.callResults
          ++ [{ message_type_id := .int 3, message_id := .str "m2",
                payload := .pydict [], charger_id := "B",
                direction := "C2S", call_obj := some 1 }]) :=
  ⟨rfl, rfl,
   C2_resolution_by_id_alone "B" "t0" (.str "m2") (.pydict []) dbTwoCalls 1 rfl rfl⟩

/-- Claim C4 counterexample: the inbound Call `[2,"m1","Reset",{}]` carries an
action outside the `OCPPCommands` registry (`Reset` is not a member), yet the
dispatcher sends nothing back at all — no CallError `NotImplemented` — and
returns normally after logging. -/
theorem C4_counterexample :
    sendCount (receive "CP1" [.int 2, .str "m1", .str "Reset", .pydict []] "t0"
        ⟨[], []⟩).effects = 0
    ∧ (receive "CP1" [.int 2, .str "m1", .str "Reset", .pydict []] "t0"
        ⟨[], []⟩).err = Option.none
    ∧ (receive "CP1" [.int 2, .str "m1", .str "Reset", .pydict []] "t0"
        ⟨[], []⟩).db.calls = []
    ∧ (receive "CP1" [.int 2, .str "m1", .str "Reset", .pydict []] "t0"
        ⟨[], []⟩).db.callResults = [] :=
  ⟨rfl, rfl, rfl, rfl⟩

/-- Claim C4 (amended): a Call whose action is not resolvable in the
`OCPPCommands` registry is logged critically and dropped — no frame of any
kind is sent back, the stored state is unchanged, and `receive` returns
without raising (other devices are unaffected). -/
theorem C4_unknown_action_dropped (charger_id now : String)
    (message_id action payload : PyVal) (db : Db)
    (h : OCPPCommands_lookup action = Option.none) :
    (receive charger_id [.int 2, message_id, action, payload] now db).db = db
    ∧ (receive charger_id [.int 2, message_id, action, payload] now db).err
        = Option.none
    ∧ sendCount (receive charger_id [.int 2, message_id, action, payload] now db).effects
        = 0 := by
  have hred : receive charger_id [.int 2, message_id, action, payload] now db
      = receiveCall charger_id [.int 2, message_id, action, payload] now db
          [.logInfo, .logInfo] := rfl
  rw [hred]
  simp only [receiveCall, List.getElem?_cons_succ, List.getElem?_cons_zero, h]
  exact ⟨by trivial, by trivial, by trivial⟩

/-- Witness for C4's amended theorem at the action name `Reset`. -/
theorem C4_unknown_action_dropped_witness :
    OCPPCommands_lookup (.str "Reset") = Option.none
    ∧ ((receive "CP1" [.int 2, .str "m1", .str "Reset", .pydict []] "t0" dbOneCall).db
        = dbOneCall
    ∧ (receive "CP1" [.int 2, .str "m1", .str "Reset", .pydict []] "t0" dbOneCall).err
        = Option.none
    ∧ sendCount (receive "CP1" [.int 2, .str "m1", .str "Reset", .pydict []] "t0"
        dbOneCall).effects = 0) :=
  ⟨rfl, C4_unknown_action_dropped "CP1" "t0" (.str "m1") (.str "Reset") (.pydict [])
    dbOneCall rfl⟩

/-- Claim C5 counterexample: `RemoteStartTransaction` is a valid registry
action, but `Call.Callbacks` has no handler for it, so the handler invocation
fails with `AttributeError`; the dispatcher logs a warning and sends nothing —
no CallError `FormationViolation`/`InternalError` frame exists anywhere in
this code base. -/
theorem C5_counterexample :
    sendCount (receive "CP1" [.int 2, .str "m1", .str "RemoteStartTransaction",
        .pydict []] "t0" ⟨[], []⟩).effects = 0
    ∧ (receive "CP1" [.int 2, .str "m1", .str "RemoteStartTransaction",
        .pydict []] "t0" ⟨[], []⟩).err = Option.none
    ∧ (receive "CP1" [.int 2, .str "m1", .str "RemoteStartTransaction",
        .pydict []] "t0" ⟨[], []⟩).effects = [.logInfo, .logInfo, .logWarning] :=
  ⟨rfl, rfl, rfl⟩

/-- Claim C5 (amended): when the handler invocation for a valid action fails
(here: the action has no handler attribute, raising `AttributeError`), the
failure is caught and logged as a warning; no CallError — no frame at all —
is sent, the stored state is unchanged, and the failure does not propagate
as a transport fault. -/
theorem C5_handler_failure_swallowed (charger_id now : String)
    (message_id payload : PyVal) (a : String) (db : Db)
    (h1 : OCPPCommands_names.contains a = true)
    (h2 : Callbacks_getattr a now = Option.none) :
    (receive charger_id [.int 2, message_id, .str a, payload] now db).db = db
    ∧ (receive charger_id [.int 2, message_id, .str a, payload] now db).err
        = Option.none
    ∧ sendCount (receive charger_id [.int 2, message_id, .str a, payload] now db).effects
        = 0
    ∧ Effect.logWarning
        ∈ (receive charger_id [.int 2, message_id, .str a, payload] now db).effects := by
  have hred : receive charger_id [.int 2, message_id, .str a, payload] now db
      = receiveCall charger_id [.int 2, message_id, .str a, payload] now db
          [.logInfo, .logInfo] := rfl
  have hlook : OCPPCommands_lookup (.str a) = some a := by
    rw [OCPPCommands_lookup, h1]
    rfl
  rw [hred]
  simp only [receiveCall, List.getElem?_cons_succ, List.getElem?_cons_zero, hlook, h2]
  exact ⟨by trivial, by trivial, by trivial, by simp⟩

/-- Witness for C5's amended theorem at the unhandled valid action
`RemoteStartTransaction`. -/
theorem C5_handler_failure_swallowed_witness :
    OCPPCommands_names.contains "RemoteStartTransaction" = true
    ∧ Callbacks_getattr "RemoteStartTransaction" "t0" = Option.none
    ∧ ((receive "CP1" [.int 2, .str "m1", .str "RemoteStartTransaction", .pydict []]
          "t0" dbOneCall).db = dbOneCall
    ∧ (receive "CP1" [.int 2, .str "m1", .str "RemoteStartTransaction", .pydict []]
          "t0" dbOneCall).err = Option.none
    ∧ sendCount (receive "CP1" [.int 2, .str "m1", .str "RemoteStartTransaction",
          .pydict []] "t0" dbOneCall).effects = 0
    ∧ Effect.logWarning ∈ (receive "CP1" [.int 2, .str "m1",
          .str "RemoteStartTransaction", .pydict []] "t0" dbOneCall).effects) :=
  ⟨rfl, rfl, C5_handler_failure_swallowed "CP1" "t0" (.str "m1") (.pydict [])
    "RemoteStartTransaction" dbOneCall rfl rfl⟩

/-- Claim C6 counterexample: the frame `[5]` has a discriminator that is not
2, 3 or 4.  No reply is sent, but the frame is *not* merely dropped: the
`except` handler only logs, so line 92 reads the never-assigned local
`message_type_id` and `receive` raises `UnboundLocalError` — in Django
Channels an exception escaping `receive` tears the consumer down, so the
processing fails fatally, contrary to the claim. -/
theorem C6_counterexample :
    (receive "CP1" [.int 5] "t0" ⟨[], []⟩).err = some .unboundLocalError
    ∧ sendCount (receive "CP1" [.int 5] "t0" ⟨[], []⟩).effects = 0 :=
  ⟨rfl, rfl⟩

/-- Claim C6 (amended): for an inbound frame that fails decoding — empty, a
discriminator that is not 2/3/4, a Call frame with fewer than its four
elements, or a CallResult frame without exactly three — no reply is sent and
the stored state is unchanged, but processing raises an uncaught exception
(`IndexError`, `UnboundLocalError` or `ValueError`) instead of dropping the
frame cleanly. -/
theorem C6_malformed_frame_raises (charger_id now : String) (db : Db)
    (message : List PyVal)
    (h : message = []
       ∨ (∃ hd rest, message = hd :: rest ∧ OCPPMessageType_of hd = Option.none)
       ∨ (message[0]? = some (.int 2) ∧ message.length < 4)
       ∨ (message[0]? = some (.int 3) ∧ message.length ≠ 3)) :
    (receive charger_id message now db).db = db
    ∧ (receive charger_id message now db).err.isSome = true
    ∧ sendCount (receive charger_id message now db).effects = 0 := by
  rcases h with rfl | ⟨hd, rest, rfl, hOf⟩ | ⟨h0, hlen⟩ | ⟨h0, hlen⟩
  · exact ⟨rfl, rfl, rfl⟩
  · simp only [receive, List.getElem?_cons_zero, hOf]
    exact ⟨by trivial, by trivial, by trivial⟩
  · cases message with
    | nil => simp at h0
    | cons hd rest =>
      have hhd : hd = PyVal.int 2 := by simpa using h0
      subst hhd
      rcases rest with _ | ⟨a, _ | ⟨b, _ | ⟨c, t⟩⟩⟩
      · exact ⟨rfl, rfl, rfl⟩
      · exact ⟨rfl, rfl, rfl⟩
      · exact ⟨rfl, rfl, rfl⟩
      · simp at hlen
        omega
  · cases message with
    | nil => simp at h0
    | cons hd rest =>
      have hhd : hd = PyVal.int 3 := by simpa using h0
      subst hhd
      rcases rest with _ | ⟨a, _ | ⟨b, _ | ⟨c, t⟩⟩⟩
      · exact ⟨rfl, rfl, rfl⟩
      · exact ⟨rfl, rfl, rfl⟩
      · simp at hlen
      · simp only [receive, receiveCallResult, List.getElem?_cons_zero]
        exact ⟨by trivial, by trivial, by trivial⟩

/-- Witness for C6's amended theorem at the frame `[5]`. -/
theorem C6_malformed_frame_raises_witness :
    (([PyVal.int 5] : List PyVal) = []
       ∨ (∃ hd rest, ([PyVal.int 5] : List PyVal) = hd :: rest
            ∧ OCPPMessageType_of hd = Option.none)
       ∨ (([PyVal.int 5] : List PyVal)[0]? = some (.int 2)
            ∧ ([PyVal.int 5] : List PyVal).length < 4)
       ∨ (([PyVal.int 5] : List PyVal)[0]? = some (.int 3)
            ∧ ([PyVal.int 5] : List PyVal).length ≠ 3))
    ∧ ((receive "CP1" [PyVal.int 5] "t0" dbOneCall).db = dbOneCall
       ∧ (receive "CP1" [PyVal.int 5] "t0" dbOneCall).err.isSome = true
       ∧ sendCount (receive "CP1" [PyVal.int 5] "t0" dbOneCall).effects = 0) :=
  ⟨Or.inr (Or.inl ⟨.int 5, [], rfl, rfl⟩),
   C6_malformed_frame_raises "CP1" "t0" dbOneCall [.int 5]
     (Or.inr (Or.inl ⟨.int 5, [], rfl, rfl⟩))⟩

/-- The stored state of an already-resolved exchange: charger `"CP1"`'s call
`"m1"` is linked to its stored `CallResult` and vice versa. -/
def resolvedCallRow : CallRow :=
  { message_type_id := .int 2, message_id := .str "m1", action := .int 17,
    payload := .pydict [], charger_id := "CP1", direction := "S2C",
    call_result_obj := some 0 }

/-- The `CallResult` row that already resolved `resolvedCallRow`. -/
def resolvedResultRow : CallResultRow :=
  { message_type_id := .int 3, message_id := .str "m1",
    payload := .pydict [("status", .str "Accepted")],
    charger_id := "CP1", direction := "C2S", call_obj := some 0 }

/-- A database in which call `"m1"` has already been resolved. -/
def dbResolved : Db := ⟨[resolvedCallRow], [resolvedResultRow]⟩

/-- Claim C7 counterexample: the call `"m1"` is already resolved — a stored
`CallResult` links it, so it is not pending — and the claim says the
duplicate `[3,"m1",{}]` must be logged and discarded with processing not
failing and never fatal to the connection.  Instead
`Call.objects.filter(message_id=...)` still matches the stored row and the
insert of the second `CallResult` violates the `CallResult.call_obj` UNIQUE
constraint (`models.py` line 34): `receive` raises an uncaught
`IntegrityError`, which in Django Channels is fatal to the consumer.
(Nothing is sent and nothing stored.) -/
theorem C7_counterexample :
    (dbResolved.calls[0]?).map (fun c => c.call_result_obj) = some (some 0)
    ∧ (receive "CP1" [.int 3, .str "m1", .pydict []] "t0" dbResolved).err
        = some .integrityError
    ∧ (receive "CP1" [.int 3, .str "m1", .pydict []] "t0" dbResolved).db = dbResolved
    ∧ sendCount (receive "CP1" [.int 3, .str "m1", .pydict []] "t0"
        dbResolved).effects = 0 :=
  ⟨rfl, rfl, rfl, rfl⟩

/-- Claim C7 (amended): a CallResult whose correlation id matches *no stored
`Call` row at all* (never issued) is logged critically and discarded — no
state change, nothing sent, no exception; and every CallError frame is only
logged, whatever its id.  But an id matching a stored row is never treated
as an orphan: if a stored `CallResult` already links that call (the exchange
is resolved), the duplicate insert violates the `CallResult.call_obj` UNIQUE
constraint and `receive` raises an uncaught `IntegrityError` — nothing is
stored or sent, but the failure is fatal to the connection; if no stored
`CallResult` links it (e.g. the await merely timed out), the late result is
saved and linked, changing stored state (C2's theorem proves that path). -/
theorem C7_orphan_logged_discarded (charger_id now : String)
    (message_id payload : PyVal) (db : Db) :
    (db.calls.findIdx? (fun c => pyBEq c.message_id message_id) = Option.none →
      (receive charger_id [.int 3, message_id, payload] now db).db = db
      ∧ (receive charger_id [.int 3, message_id, payload] now db).err = Option.none
      ∧ sendCount (receive charger_id [.int 3, message_id, payload] now db).effects = 0
      ∧ Effect.logCritical
          ∈ (receive charger_id [.int 3, message_id, payload] now db).effects)
    ∧ (∀ i, db.calls.findIdx? (fun c => pyBEq c.message_id message_id) = some i →
        db.callResults.any (fun r => r.call_obj == some i) = true →
        (receive charger_id [.int 3, message_id, payload] now db).db = db
        ∧ (receive charger_id [.int 3, message_id, payload] now db).err
            = some .integrityError
        ∧ sendCount (receive charger_id [.int 3, message_id, payload] now db).effects
            = 0)
    ∧ ∀ rest : List PyVal,
        (receive charger_id (.int 4 :: rest) now db).db = db
        ∧ (receive charger_id (.int 4 :: rest) now db).err = Option.none
        ∧ sendCount (receive charger_id (.int 4 :: rest) now db).effects = 0 := by
  have hred : receive charger_id [.int 3, message_id, payload] now db
      = receiveCallResult charger_id [.int 3, message_id, payload] db
          [.logInfo, .logInfo] := rfl
  refine ⟨?_, ?_, ?_⟩
  · intro h
    rw [hred]
    simp only [receiveCallResult, h]
    exact ⟨by trivial, by trivial, by trivial, by simp⟩
  · intro i hi hlink
    rw [hred]
    simp only [receiveCallResult, hi, hlink, if_true]
    exact ⟨by trivial, by trivial, by trivial⟩
  · intro rest
    simp only [receive, List.getElem?_cons_zero]
    exact ⟨by trivial, by trivial, by trivial⟩

/-- Witness for C7's amended theorem: the spec's orphan scenario
`[3,"unknown-id",{}]` against a database without that id, and the duplicate
`[3,"m1",{}]` against the already-resolved exchange `dbResolved`. -/
theorem C7_orphan_logged_discarded_witness :
    dbOneCall.calls.findIdx?
        (fun c => pyBEq c.message_id (.str "unknown-id")) = Option.none
    ∧ ((receive "CP1" [.int 3, .str "unknown-id", .pydict []] "t0" dbOneCall).db
          = dbOneCall
       ∧ (receive "CP1" [.int 3, .str "unknown-id", .pydict []] "t0" dbOneCall).err
          = Option.none
       ∧ sendCount (receive "CP1" [.int 3, .str "unknown-id", .pydict []] "t0"
          dbOneCall).effects = 0
       ∧ Effect.logCritical ∈ (receive "CP1" [.int 3, .str "unknown-id", .pydict []]
          "t0" dbOneCall).effects)
    ∧ dbResolved.calls.findIdx? (fun c => pyBEq c.message_id (.str "m1")) = some 0
    ∧ dbResolved.callResults.any (fun r => r.call_obj == some 0) = true
    ∧ ((receive "CP1" [.int 3, .str "m1", .pydict []] "t0" dbResolved).db = dbResolved
       ∧ (receive "CP1" [.int 3, .str "m1", .pydict []] "t0" dbResolved).err
          = some .integrityError
       ∧ sendCount (receive "CP1" [.int 3, .str "m1", .pydict []] "t0"
          dbResolved).effects = 0) :=
  ⟨rfl,
   (C7_orphan_logged_discarded "CP1" "t0" (.str "unknown-id") (.pydict [])
      dbOneCall).1 rfl,
   rfl, rfl,
   (C7_orphan_logged_discarded "CP1" "t0" (.str "m1") (.pydict [])
      dbResolved).2.1 0 rfl rfl⟩

/-- Claim C8 (confirmed): on the inbound frame
`[2,"msg1","BootNotification",{}]` the dispatcher `group_send`s — to that
charger's own group — the frame `[3,"msg1",p]` where `p` has exactly the keys
`currentTime` (the ISO-8601 `isoformat()` string of the server's current
time), `interval = 10` and `status = "Accepted"`, reusing the inbound
correlation id `"msg1"`; `receive` returns without raising. -/
theorem C8_boot_scenario (charger_id now : String) (db : Db) :
    (receive charger_id [.int 2, .str "msg1", .str "BootNotification", .pydict []]
        now db).err = Option.none
    ∧ (receive charger_id [.int 2, .str "msg1", .str "BootNotification", .pydict []]
        now db).effects
      = [.logInfo, .logInfo, .logInfo,
         .sendFrame ("ocpp_" ++ charger_id)
           (.pylist [.int 3, .str "msg1",
             .pydict [("currentTime", .str now), ("interval", .int 10),
                      ("status", .str "Accepted")]]),
         .logInfo] :=
  ⟨rfl, rfl⟩

end DjangoOCPP
